import Mathlib

/-!
Verification of the token-normalization pipeline of `helpers.py`
(Job_Skills_Analysis).

A pandas column is modelled as `List (Option String)`: `none` models a NaN
or non-string cell.  An exploded, row-tagged token stream is modelled as
`List (Nat × Option String)`, the `Nat` being the original row label.
The pipelines `normalize_city_series`, `normalize_country_series`,
`normalize_str_separated_series`, `normalize_skills_series` and
`normalize_skills_series_extra` are translated step by step from the
source; `squeeze_series` models
`s.reset_index().groupby("index").agg(set).squeeze().str.join(";")`,
returning `none` for the whole run when `DataFrame.squeeze()` collapses a
single-group frame to a bare scalar (the subsequent `.str.join` then
raises an AttributeError in the source).
-/

namespace Helpers

set_option maxRecDepth 100000

set_option maxHeartbeats 1000000

/-- A cell or token value: `none` models NaN or a non-string cell. -/
abbrev Token := Option String

/-- A row-tagged token stream (a pandas series after `.explode()`). -/
abbrev TokStream := List (Nat × Token)

/-- Whitespace test used by the model of `str.strip()`. -/
def isWs (c : Char) : Bool :=
  c == ' ' || c == '\t' || c == '\n' || c == '\r'

/-- Characters of a string after stripping leading and trailing whitespace. -/
def trimChars (l : List Char) : List Char :=
  ((l.dropWhile isWs).reverse.dropWhile isWs).reverse

/-- Model of Python `str.strip()`. -/
def sTrim (s : String) : String := String.mk (trimChars s.data)

/-- ASCII lowercase/uppercase letter pairs. -/
def upperPairs : List (Char × Char) :=
  [('a', 'A'), ('b', 'B'), ('c', 'C'), ('d', 'D'), ('e', 'E'), ('f', 'F'),
   ('g', 'G'), ('h', 'H'), ('i', 'I'), ('j', 'J'), ('k', 'K'), ('l', 'L'),
   ('m', 'M'), ('n', 'N'), ('o', 'O'), ('p', 'P'), ('q', 'Q'), ('r', 'R'),
   ('s', 'S'), ('t', 'T'), ('u', 'U'), ('v', 'V'), ('w', 'W'), ('x', 'X'),
   ('y', 'Y'), ('z', 'Z')]

/-- Uppercase one character (ASCII, as all table data is ASCII). -/
def charUpper (c : Char) : Char :=
  match upperPairs.find? (fun p => p.1 == c) with
  | some p => p.2
  | none => c

/-- Model of Python `str.upper()`. -/
def sUpper (s : String) : String := String.mk (s.data.map charUpper)

/-- Split a character list at every character satisfying `p`; adjacent or
leading/trailing separators yield empty pieces, exactly as `re.split` on a
character class does. -/
def splitChars (p : Char → Bool) : List Char → List (List Char)
  | [] => [[]]
  | c :: cs =>
    if p c then [] :: splitChars p cs
    else
      match splitChars p cs with
      | [] => [[c]]
      | q :: qs => (c :: q) :: qs

/-- Model of `re.split` on a character class. -/
def strSplit (p : Char → Bool) (s : String) : List String :=
  (splitChars p s.data).map String.mk

/-- Model of `Series.replace(pattern, "", regex=True)` for a character
class: delete every occurrence of the listed characters. -/
def removeChars (bad : List Char) (s : String) : String :=
  String.mk (s.data.filter (fun c => !(bad.contains c)))

/-- Model of `Series.replace([""], np.nan, regex=False)` on one value. -/
def emptyToNan : Token → Token
  | some "" => none
  | t => t

/-- Model of `cell.str.split(pat)` on one cell: a NaN cell stays NaN (one
token), a string cell becomes its list of pieces. -/
def splitCell (p : Char → Bool) : Token → List Token
  | none => [none]
  | some s => (strSplit p s).map some

/-- Flatten per-row token lists into a row-tagged stream, rows labelled
from `k`: the model of `.explode()` applied to a column of lists. -/
def explodeFrom (g : Token → List Token) : Nat → List Token → TokStream
  | _, [] => []
  | k, c :: cs => (g c).map (fun t => (k, t)) ++ explodeFrom g (k + 1) cs

/-- Model of `col.str.split(pat).explode()`. -/
def strSplitExplode (p : Char → Bool) (col : List Token) : TokStream :=
  explodeFrom (splitCell p) 0 col

/-- Apply an element-wise series operation to every token of a stream. -/
def mapTokens (f : Token → Token) (st : TokStream) : TokStream :=
  st.map (fun q => (q.1, f q.2))

/-- Model of `s.str.split(pat).explode()` applied to an already exploded
stream (used by the skill pipeline to expand multi-tag values). -/
def explodeStream (g : Token → List Token) : TokStream → TokStream
  | [] => []
  | q :: qs => (g q.2).map (fun t => (q.1, t)) ++ explodeStream g qs

/-- One step of `replace_series`: `result.replace(to_replace, replace_by,
regex=False)` on one value, for the table entry `e = (replace_by,
to_replace)`. -/
def replaceEntry (e : String × List String) : Token → Token
  | none => none
  | some v => if v ∈ e.2 then some e.1 else some v

/-- Source `replace_series`: the entries of the replacement mapping are
applied to the whole series one after the other, in declaration order. -/
def replace_series (st : TokStream) (tbl : List (String × List String)) : TokStream :=
  tbl.foldl (fun res e => mapTokens (replaceEntry e) res) st

/-- The effect of `replace_series` on a single token (derived form). -/
def replaceToken (tbl : List (String × List String)) (t : Token) : Token :=
  tbl.foldl (fun acc e => replaceEntry e acc) t

/-- Character-list test of Python `str.startswith`. -/
def startsWithCL : List Char → List Char → Bool
  | [], _ => true
  | _ :: _, [] => false
  | a :: as, b :: bs => a == b && startsWithCL as bs

/-- Source `replace_if_startswith`: a non-string (NaN) value is returned
unchanged; a string is replaced whole when it starts with the pattern. -/
def replace_if_startswith (x : Token) (pat : String) (repl : String) : Token :=
  match x with
  | none => none
  | some s => if startsWithCL pat.data s.data then some repl else some s

/-- Source loop of `normalize_skills_series_extra`: every rule of the
table is applied to the whole series in declaration order via
`s.apply(lambda e: replace_if_startswith(e, k, v))`. -/
def startswith_pass (st : TokStream) (tbl : List (String × String)) : TokStream :=
  tbl.foldl (fun s e => mapTokens (fun t => replace_if_startswith t e.1 e.2) s) st

/-- The effect of `startswith_pass` on a single token (derived form). -/
def startswithToken (tbl : List (String × String)) (t : Token) : Token :=
  tbl.foldl (fun acc e => replace_if_startswith acc e.1 e.2) t

/-- The distinct row labels of a stream in ascending order: the (sorted)
group keys of `reset_index().groupby("index")`. -/
def groupKeys (st : TokStream) : List Nat :=
  (List.range (st.foldl (fun m q => max m q.1) 0 + 1)).filter
    (fun i => st.any (fun q => q.1 == i))

/-- The tokens of one group (one original row). -/
def groupOf (st : TokStream) (i : Nat) : List Token :=
  (st.filter (fun q => q.1 == i)).map (fun q => q.2)

/-- Model of `.groupby("index").agg(set)`: one row per distinct original
row label, carrying that row's token multiset (deduplication happens at
join time, which is equivalent for the set model). -/
def agg_set (st : TokStream) : List (Nat × List Token) :=
  (groupKeys st).map (fun i => (i, groupOf st i))

/-- Result of `DataFrame.squeeze()` on the one-column grouped frame:
a single-row frame collapses to its bare cell value. -/
inductive Squeezed where
  | scalar : List Token → Squeezed
  | frame : List (Nat × List Token) → Squeezed

/-- Model of `DataFrame.squeeze()` on a one-column frame. -/
def dfSqueeze : List (Nat × List Token) → Squeezed
  | [r] => Squeezed.scalar r.2
  | rs => Squeezed.frame rs

/-- Join character lists with the separator `;`. -/
def joinData : List (List Char) → List Char
  | [] => []
  | [x] => x
  | x :: y :: ys => x ++ ';' :: joinData (y :: ys)

/-- Model of `";".join(set_of_values)` for one group: a group containing a
NaN (non-string) member joins to NaN; otherwise the deduplicated string
members are joined with `;`. -/
def setJoin (g : List Token) : Token :=
  if none ∈ g then none
  else some (String.mk (joinData ((g.filterMap id).dedup.map String.data)))

/-- Model of `.str.join(";")` after the squeeze: calling it on the bare
scalar produced by a single-group squeeze raises (modelled as `none` for
the whole run). -/
def strJoinSemi : Squeezed → Option (List Token)
  | Squeezed.scalar _ => none
  | Squeezed.frame rs => some (rs.map (fun r => setJoin r.2))

/-- Source `squeeze_series` (with its default separator `";"`):
`s.reset_index().groupby("index").agg(set).squeeze().str.join(";")`. -/
def squeeze_series (st : TokStream) : Option (List Token) :=
  strJoinSemi (dfSqueeze (agg_set st))

/-- Re-split a joined output value on `;` (used to state the dedup and
expansion claims). -/
def resplitSemi (s : String) : List String :=
  strSplit (fun c => c == ';') s

/-- Default location separator class `"[-,;(/[]"`. -/
def citySepChars : List Char := ['-', ',', ';', '(', '/', '[']

/-- Predicate form of the location separator class. -/
def citySep (c : Char) : Bool := citySepChars.contains c

/-- Skill separator class `"[;,(/&]"`. -/
def skillSepChars : List Char := [';', ',', '(', '/', '&']

/-- Predicate form of the skill separator class. -/
def skillSep (c : Char) : Bool := skillSepChars.contains c

/-- Generic-list separator class `"[,;]"`. -/
def strSepChars : List Char := [',', ';']

/-- Predicate form of the generic-list separator class. -/
def strSep (c : Char) : Bool := strSepChars.contains c

/-- The canonical separator `";"` as a predicate. -/
def semiSep (c : Char) : Bool := c == ';'

/-- City replacement mapping (`replace_by -> to_replace`), in source
declaration order. -/
def city_replacement_mapping : List (String × List String) :=
  [("BARCELONA", ["BARCELLONA"]),
   ("DUBLIN", ["DUBLINO"]),
   ("EUROPE", ["EU", "EUROPEROPE"]),
   ("FLORENCE", ["FIRENZE"]),
   ("GENOA", ["GENOVA"]),
   ("GENEVE", ["GINEVRA"]),
   ("ITALY", ["ITALY MULTIPLE LOCATION"]),
   ("REMOTE", ["ANCHE REMOTO", "FULL REMOTE"]),
   ("LONDON", ["LONDAN", "LONDRA"]),
   ("LAUSSANE", ["LOSANNA"]),
   ("LUXEMBOURG", ["LUSSEMBURGO"]),
   ("MILAN", ["MI", "MILANO", "MILANO ROZZANO", "MILANO OR REMOTE"]),
   ("SWITZERLAND", ["CH"])]

/-- Country replacement mapping, in source declaration order. -/
def country_replacement_mapping : List (String × List String) :=
  [("IT", ["ITALY", "ITALIA", "ITALT", "ITALY", "ITLAY", "`ITALY",
           "ITALIA O SVIZZERA", "IRALT", "MILAN", "ROMA", "VENETO"]),
   ("AR", ["ARGENTINA"]),
   ("AU", ["AUSTRALIA"]),
   ("BE", ["BELGIO"]),
   ("FR", ["FRANCE"]),
   ("DE", ["GERMANY"]),
   ("HU", ["HUNGARY"]),
   ("IE", ["IRELAND"]),
   ("IL", ["ISRAEL"]),
   ("JP", ["JO"]),
   ("GB", ["LONDON", "SCOZIA", "UK", "UNITED KINGDOM"]),
   ("US", ["USA"]),
   ("LU", ["LUXEMBOURG"]),
   ("MT", ["MALTA"]),
   ("MD", ["MOLDOVA"]),
   ("NO", ["NORWAY"]),
   ("PL", ["POLAND"]),
   ("RS", ["SERBIA"]),
   ("SK", ["SLOVACCHIA"]),
   ("ES", ["SPAIN"]),
   ("CH", ["SVIZZERA", "SWITZERLAND"]),
   ("SE", ["SWEDEN"]),
   ("TR", ["TURKEY"]),
   ("UA", ["UKRAINE"])]

/-- Skill replacement mapping, in source declaration order. -/
def skills_replacement_mapping : List (String × List String) :=
  [("BIG DATA", ["BIGDATA"]),
   ("SPARK", ["APACHE SPARK", "SPARQL"]),
   ("ARTIFICIAL INTELLIGENCE", ["AI"]),
   ("AZURE", ["AZURE AD", "AZURE PLATFORM"]),
   ("BASH", ["BASH SCRIPTING"]),
   ("DATA SCIENCE", ["DATA SCIENTIST"]),
   ("DATA VISUALIZATION", ["DATA VISUALISATION"]),
   ("BUSINESS ANALYSIS", ["BUSINESS ANALYST"]),
   ("BUSINESS INTELLIGENCE", ["BI MICROSOFT", "BI"]),
   ("CONFIGURATION", ["CONFIGURATION AND MONITORING"]),
   ("SW DEVELOPMENT",
    ["DEVELOPERS", "DEVELOPER", "ENGINEERING AND SOFTWARE ARCHITECTURE DESIGN"]),
   ("DIGITAL INTELLIGENCE", ["DI"]),
   ("FINTECH", ["FINTECH ANALYSIS"]),
   ("HTML", ["HTML5"]),
   ("JSON", ["JSON LIBRARIES"]),
   ("LEAD",
    ["LEADERSHIP AND COLLABORATION", "TEAM LEADER", "TEAM MANAGEMENT",
     "TECHNICAL LEAD"]),
   ("MARKETING", ["MARKETO"]),
   ("DATA", ["MASTER DATA", "DATA OFFICER", "DATA ROADMAP"]),
   ("DATA MANAGEMENT", ["MASTER DATA MANAGEMENT", "DATA MANAGER"]),
   ("PYTHON", ["PHYTON", "PYTHONI", "SKILLS:\u00A0PYTHON"]),
   ("QLIK", ["QLIKVIEW"]),
   ("PREDICTIVE ANALYSIS", ["PREDICTIVE"]),
   ("NOSQL", ["REDIS AND OTHER NOSQL DATA BASE"]),
   ("PROJECT MANAGEMENT", ["PROJECT MANAGER", "PROJECT MANAGERS"]),
   ("SQL",
    ["MICROSOFT SQL SERVER", "MICROSOFT SQLSERVER", "DB2", "ORACLEDB",
     "POSTGRESQL", "MYSQL", "RDBMS", "DATABASE MYSQL", "DATABASE SQL",
     "POSTEGRESQL", "POSTGERSQL", "POSTGESQL"]),
   ("MOBILE", ["MOBILE APPS", "MOBILE FRAMEWORKS"]),
   ("NLP", ["NATURAL LANGUAGE UNDERSTANDING", "NATURAL LANGUAGE PROCESSING"]),
   ("CLOUD",
    ["CLOUD COMPUTING", "CLOUD DEVELOPMENT", "GOOGLE CLOUD",
     "GOOGLE CLOUD PLATFORM", "MINIMAL EXPERIENCE WITH CLOUD ADMIN"]),
   ("FUNCTIONAL ANALYSIS",
    ["FUNCTIONAL ANALYST", "FUNCTIONAL ANALYSYS", "ANALISTA FUNZIONALE"]),
   ("CONSULTANCY",
    ["CONSULENTE", "CONSULTANTS", "CONSULTANT", "CONSULTING",
     "CONSULTATIVE BUSINESS DEVELOPMENT", "SKILLS: CONSULTING",
     "SENIOR CONSULTANT"]),
   ("RESOURCE DESCRIPTION FRAMEWORK", ["RDF"]),
   ("API;REST", ["API GATEWAY", "API REST", "REST"]),
   ("SAP",
    ["SAP BW", "SAP APO", "SAP BI", "SAP BO", "SAP BPC", "SAP CO", "SAP CRM",
     "SAP FI", "SAP HANA", "SAP MM", "SAP PP", "SAP SD", "SAP SYCLO", "4HANA"]),
   ("ACCENTURE", ["ACCENTURE INTERACTIVE"]),
   ("AGILE", ["AGILE SOFTWARE DEVELOPMENT"]),
   ("ANDROID", ["ANDROID DEVELOPMENT", "ANDRIOD", "ANDORID", "ANDR", "ANDRIOD SDK"]),
   ("ANGULAR JS",
    ["ANGULAR.JS", "ANGULAR2", "ANGULARJS", "ANGOLARJS", "ANGULA", "ANGULSRJS"]),
   ("ASSET MANAGEMENT", ["AM"]),
   ("AWS;AZURE", ["AWS OR AZURE"]),
   ("BLOCKCHAIN", ["BLOCKCHAIN DEVELOPMENT"]),
   ("BLUE PRISM;AUTOMATION ANYWHERE", ["BLUE PRISM OR AUTOMATION ANYWHERE"]),
   ("CARD PAYMENTS;CASHLESS PAYMENTS", ["CARDS", "CASHLESS PAYMENTS"]),
   ("CHIEF DATA OFFICER", ["CDO"]),
   ("CSS", ["CSS3", "CASCADING STYLE SHEETS"]),
   ("D3 JS", ["D3", "D3JS"]),
   ("DATA ENGINEERING", ["DATA ENGINEER"]),
   ("DATA GOVERNANCE", ["DATA GOVERNANCE SOFTWARE"]),
   ("SECURITY",
    ["IT SECURITY", "DEFINE AND SUPPORT IT SECURITY POLICY",
     "KNOWLEDGE OF SECURITY SYSTEMS AND ARCHITECTURES", "SECURITY"]),
   ("DISTRIBUTED COMPUTING", ["DISTRIBUTED ARCHITECTURES"]),
   ("DOCKER;KUBERNETES", ["DOCKER OR KUBERNETES"]),
   ("DATA WAREHOUSING", ["DWH"]),
   ("WEB",
    ["E UN WEB ARCHITECT", "WEBLOGIC 103",
     "STANNO CERCANDO 2 BACK END E 2 FULL STACK DEVELOPER"]),
   ("CLOUD;AWS;E2C", ["EC2"]),
   ("BLOCKCHAIN;ETHEREUM", ["ETHEREUM"]),
   ("FINANCE;FINANCIAL ANALYSIS", ["FINANCIAL ANALYSIS"]),
   ("FINANCE;FINANCIAL FRAMEWORKS", ["FINANCIAL FRAMEWORKS"]),
   ("GIT;REACT", ["GIT AND A MINUMUM OF 2 YEARS EXPERIENCE WITH REACT"]),
   ("GIT", ["GITHUB"]),
   ("HADOOP", ["HDFS", "HADHOOP", "HADO"]),
   ("IT", ["INFORMATICA", "IT SUPPORT ON MAC AND MICROSOFT HARDWARE"]),
   ("INFRASTRUCTURE",
    ["INFRASTRUCTURE EXPERIENCE", "INFRASTRUCTURE INTEGRATION",
     "SYSTEM INTEGRATIONS"]),
   ("ISO 27001;IT SECURITY", ["ISO 27001", "ISO27001LA", "IEC 27001"]),
   ("JAVA", ["JAVA EE", "RXJAVA", "SKILLS: JAVA", "J2EE"]),
   ("JAVASCRIPT", ["JS"]),
   ("MICROSOFT BI;BUSINESS INTELLIGENCE", ["MICROSOFT BI"]),
   ("POWER BI;BUSINESS INTELLIGENCE", ["POWER BI"]),
   ("MONGODB", ["MONGO"]),
   ("MICROSOFT AD", ["MS AD AUTHENTICATION"]),
   ("NEGOTIATION", ["CONTRACT AND VENDOR NEGOTIATIONS", "NEGOTIATIONS"]),
   ("SALES", ["PRESALES", "PRE SALES", "PRE-SALES AND BUDGET MANAGEMENT"]),
   ("PROJECT MANAGEMENT;PRODUCT MANAGEMENT", ["PROJECT AND PRODUCT MANAGEMENT"]),
   ("RECOMMENDATION", ["RECCOMENDATION"]),
   ("ROBOTIC", ["ROBOTIC PROCESS AUTOMATION"]),
   ("AWS S3;AWS", ["S3"]),
   ("SALESFORCE", ["SALESFORCECOM"]),
   ("SAS", ["SAS VISUAL ANALYTICS", "SASS"]),
   ("PYTHON;SCIKITLEARN", ["SCIKITLEARN"]),
   ("PYTHON;SCIPY", ["SCIPY"]),
   ("STATISTICS", ["STATISTICAL ANALYSIS"]),
   ("SWIFT", ["SWIFT 5", "SWIFT SECURITY PROGRAMME"]),
   ("VIRTUAL MACHINES", ["VIRTUAL MACHINES"]),
   ("SECURITY;VULNERABILITY ASSESSMENT", ["VULNERABILITY ASSESSMENT"]),
   ("SECURITY;VULNERABILITY MANAGEMENT", ["VULNERABILITY MANAGEMENT"]),
   ("VUE JS", ["VUE"]),
   ("WEBPACK", ["WEBPACK OR SIMILAR TOOLS"]),
   ("WEBSHEPERE", ["WEBSHEPERE 7"]),
   ("PIG;SPARK", ["PIG AND SPARK"]),
   ("ANALYSIS", ["ANALYSE", "ANALYSING"]),
   ("BOOTSTRAP",
    ["BOOTSRAP", "BOOTRSTRAPS", "BOOTRSTRAPS", "BOOSTRAPCSS", "BOOTSTR",
     "BOOTSTR", "BOOST"]),
   ("CASSANDRA", ["CASANDRA"]),
   ("DATABASE", ["DBMS", "DBASE", "DBA"]),
   ("MICROSOFT", ["MICOROSOFT", "MICORSOFT", "MICORSOFT EXCEL"])]

/-- Extra skill replacement dictionary (`to_replace_start -> replace_by`),
in source declaration order. -/
def extra_replacement_dict : List (String × String) :=
  [("2G NET", "2G NETWORKS"),
   ("3G NET", "3G NETWORKS"),
   ("4G NET", "4G NETWORKS"),
   ("5G NET", "5G NETWORKS"),
   ("6G NET", "6G NETWORKS"),
   ("3D STUDIO", "3D STUDIO"),
   ("ACCEPTANCE TEST", "ACCEPTANCE TEST"),
   ("ACTIONSCR", "ACTIONSCRIPT"),
   ("ACTIVE DI", "ACTIVE DIRECTORY"),
   ("ACTIVE S", "ACTIVE SERVER"),
   ("ACTIVE TEMPLATE", "ACTIVE TEMPLATE"),
   ("ACTIVEMATRI", "ACTIVEMATRIX "),
   ("ACTIVITI", "ACTIVITI"),
   ("AD HOC", "ADHOC ANALYSIS"),
   ("ADHOC", "ADHOC ANALYSIS"),
   ("AD ", "ADVERTISEMENT"),
   ("ADA ", "ADA"),
   ("ADABAS ", "ADABAS"),
   ("ADOBE ", "ADOBE"),
   ("AGILE ", "AGILE"),
   ("AJAX ", "AJAX"),
   ("AKKA ", "AKKA"),
   ("ALGO", "ALGORITHMS"),
   ("ALL IT", "IT"),
   ("ALTOVA ", "ALTOVA"),
   ("AMAZO", "AWS"),
   ("ANDRO", "ANDROID"),
   ("ANGULA", "ANGULAR JS"),
   ("APACHE HADOOP", "HADOOP"),
   ("APACHE HBASE", "HBASE"),
   ("APACHE HI", "HIVE"),
   ("APACHE K", "KAFKA"),
   ("APACHE M", "MAHOUT"),
   ("APACHE SP", "SPARK"),
   ("APACHE SU", "APACHE SUBVERSION"),
   ("APACHE WE", "APACHE WEB SERVER"),
   ("API ", "API"),
   ("APOLLO ", "APOLLO"),
   ("APPLE", "APPLE"),
   ("ARTIFIC", "ARTIFICIAL INTELLIGENCE"),
   ("ASCENTIAL", "ASCENTIAL DATASTAGE"),
   ("ASPEN ", "ASPEN"),
   ("ASSET ", "ASSET MANAGEMENT"),
   ("ASYNCHR", "ASYNCHRONOUS TRANSFER MODE"),
   ("ATLASSIAN", "ATLASSIAN"),
   ("AUTODESK", "AUTODESK"),
   ("AWS ", "AWS"),
   ("AZURE ", "AZURE"),
   ("BACK-END", "BACK END"),
   ("BACKBONE NETWORKS", "BACKBONE NETWORKS"),
   ("BALSAMIC", "BALSAMIQ"),
   ("BASE SAS", "SAS"),
   ("BEX ", "BEX"),
   ("BIG D", "BIG DATA"),
   ("BLOCKCHA", "BLOCKCHAIN"),
   ("BLOOMBE", "BLOOMBERG"),
   ("BLUETOO", "BLUETOOTH"),
   ("BOOTSTRAP", "BOOTSTRAP"),
   ("CASCADING STYLE", "CSS"),
   ("ARCHITEC", "ARCHITECTURE"),
   ("ARDUI", "ARDUINO"),
   ("ARM ", "ARM"),
   ("ART ", "ART"),
   ("ASAP ", "ASAP"),
   ("ASP ", "ASP"),
   ("BASH ", "BASH"),
   ("BEHAVIOUR", "BEHAVIOUR ANALYSIS"),
   ("BILLIN", "BILLING SYSTEMS"),
   ("BITBUC", "BITBUCKET"),
   ("BLACKBERRY", "BLACKBERRY"),
   ("BMC ", "BMC"),
   ("BOOSTRAP", "BOOTSTRAP"),
   ("BOURNE", "BOURNE"),
   ("BUSINESS O", "BUSINESS OBJECT"),
   ("BUSINESSOB", "BUSINESS OBJECT"),
   ("BUSINESS S", "BUSINESS SUPPORT"),
   ("C ", "C"),
   ("C+", "C++"),
   ("CAM ", "CAM"),
   ("CASCA", "CSS"),
   ("CCS ", "CCS"),
   ("CASSANDRA", "CASSANDRA"),
   ("CD ", "CD"),
   ("CELLULAR ", "CELLULAR"),
   ("CENTOS ", "CENTOS"),
   ("CGI ", "CGI"),
   ("CISCO ", "CISCO"),
   ("CITRIX ", "CITRIX"),
   ("CLOUD ", "CLOUD"),
   ("CLOUDE", "CLOUDERA"),
   ("CLUSTER ", "DISTRIBUTED COMPUTING"),
   ("CLUSTERS", "DISTRIBUTED COMPUTING"),
   ("CMMI", "CMMI"),
   ("CMS ", "CMS"),
   ("COBOL", "COBOL"),
   ("COCOA", "COCOA"),
   ("CODEIG", "CODEIGNITER"),
   ("COGNOS", "COGNOS"),
   ("COMMUNICAT", "COMMUNICATION"),
   ("CONSUL", "CONSULTANCY"),
   ("CONTENT M", "CONTENT MANAGEMENT"),
   ("CONTINUOUS D", "CD"),
   ("CONTINUOUS I", "CI"),
   ("CRM ", "CRM"),
   ("CRUD ", "CRUD"),
   ("DATA I", "DATA INTEGRATION"),
   ("DATA MIN", "DATA MINING"),
   ("DATA MO", "DATA MODELLING"),
   ("DATA M", "DATA MANAGEMENT"),
   ("DATA PRO", "DATA PROCESSING"),
   ("DATA PRE-PROCESSING", "DATA PROCESSING"),
   ("DATA QUALITY", "DATA MANAGEMENT"),
   ("DATA STORAG", "DATA STORAGE"),
   ("DATA TRANS", "DATA TRANSFORMATION"),
   ("DATA VI", "DATA VISUALIZATION"),
   ("DATA WA", "DATA WAREHOUSING"),
   ("DATABASE ", "DATABASE"),
   ("DEB", "DEBIAN"),
   ("DEEP", "DEEP LEARNING"),
   ("DEL ", "DEL"),
   ("DEPLOYMENT ", "DEPLOYMENT"),
   ("DISTR", "DISTRIBUTED COMPUTING"),
   ("DJANGO", "DJANGO"),
   ("DOCKER", "DOCKER"),
   ("DOJO", "DOJO"),
   ("DOMAIN NA", "DNS"),
   ("DREAMWEAVER", "DREAMWEAVER"),
   ("DRUPAL", "DRUPAL"),
   ("E-COMMERCE", "E-COMMERCE"),
   ("ECOMME", "E-COMMERCE"),
   ("ECLIPSE", "ECLIPSE"),
   ("ELASTICSEAR", "ELASTICHSEARCH"),
   ("EMBED", "EMBEDDED"),
   ("ERP ", "ERP"),
   ("ETL ", "ETL"),
   ("EXTREME PR", "EXTREME PROGRAMMING"),
   ("FIREWA", "FIREWALLS"),
   ("FLASH ", "FLASH"),
   ("FRONT E", "FRONT END"),
   ("FRONTE", "FRONT END"),
   ("FTTX ", "FTTX"),
   ("FULL ST", "SW DEVELOPMENT"),
   ("FUNCTIONAL D", "FUNCTIONAL DESIGN"),
   ("FUNCTIONAL PRO", "FUNCTIONAL PROGRAMMING"),
   ("FUNCTIONAL RE", "FUNCTIONAL REQUIREMENTS"),
   ("GAME ", "GAME"),
   ("GEOGRAPHIC I", "GEOGRAPHIC INFORMATION SYSTEMS"),
   ("GOOGLE CL", "CLOUD"),
   ("GRAPHIC", "GRAPHICS"),
   ("GUI ", "GUI"),
   ("HADOOP ", "HADOOP"),
   ("HANA ", "HANA"),
   ("HELPDESK", "HELPDESK"),
   ("HIBE", "HIBERNATE"),
   ("HP ", "HP"),
   ("HTM", "HTML"),
   ("HTTP", "HTTP"),
   ("HYPERION", "HYPERION"),
   ("IBM CLOUD", "CLOUD"),
   ("IBM COGNO", "COGNOS"),
   ("IBM HA", "IBM HARDWARE"),
   ("IBM WEB", "IBM WEBSPHERE"),
   ("ICT ", "ICT"),
   ("IDEE", "IDEE"),
   ("INFORMATICA", "IT"),
   ("INFORMATION SEC", "SECURITY"),
   ("INFORMATION TEC", "IT"),
   ("INTEL ", "INTEL"),
   ("INTELLIJ", "INTELLIJ"),
   ("INTRUSION", "INTRUSION DETECTION"),
   ("IONIC ", "IONIC"),
   ("IOT ", "IOT"),
   ("IP ", "IP"),
   ("IPHONE", "IPHONE"),
   ("ISO 27", "SECURITY"),
   ("ISO 900X", "ISO 900X"),
   ("IT ARCHITECTURE", "IT ARCHITECTURE"),
   ("IT INFRASTRUCTURE", "INFRASTRUCTURE"),
   ("IT PROJECT", "PROJECT MANAGEMENT"),
   ("ITIL", "ITIL"),
   ("JAK", "JAKARTA TOMCAT"),
   ("JASPER", "JASPER"),
   ("JAVA ", "JAVA"),
   ("JAVASC", "JAVASCRIPT"),
   ("JAVASE", "JAVA SERVER"),
   ("JBOS", "JBOSS"),
   ("JDE", "JDE"),
   ("JIRA ", "JIRA"),
   ("JOOM", "JOOMLA"),
   ("JQU", "JQUERY"),
   ("JSC", "JAVASCRIPT"),
   ("JSO", "JSON"),
   ("JULIA", "JULIA"),
   ("JUPITER", "JUPYTER"),
   ("JUPYTER", "JUPYTER"),
   ("KAFK", "KAFKA"),
   ("KERA", "KERAS"),
   ("KNOC", "KNOCKOUT JS"),
   ("KORN ", "KORN"),
   ("LINU", "LINUX"),
   ("LOTUS ", "LOTUS"),
   ("LSI ", "LSI"),
   ("LUA", "LUA"),
   ("MACHINE L", "MACHINE LEARNING"),
   ("MACROMEDIA", "MACROMEDIA"),
   ("MARKET", "MARKETING "),
   ("MASTER DATA", "DATA"),
   ("MATLA", "MATLAB"),
   ("MCAFEE", "MCAFEE"),
   ("MERCURY ", "MERCURY"),
   ("MICROSOFT AS", "ASP"),
   ("MICROSOFT C", "C#"),
   ("MICROSOFT DY", "MICROSOFT DYNAMICS"),
   ("MICROSOFT E", "MS EXCEL"),
   ("MS EXCEL", "MS EXCEL"),
   ("MICROSOFT OF", "MS OFFICE"),
   ("MICROSOFT OU", "MS OUTLOOK"),
   ("MICROSOFT PO", "MS POWERPOINT"),
   ("MICROSOFT SQ", "SQL"),
   ("MICROSOFT TRA", "SQL"),
   ("MICROSOFT TEAM", "MS TEAMS"),
   ("MICROSOFT VISI", "VISIO"),
   ("MICROSOFT VISUAL C", "VISUAL C"),
   ("MICROSOFT VISUAL S", "VISUAL STUDIO"),
   ("MICROSOFT WI", "WINDOWS"),
   ("MICROSOFT WO", "MS WORD"),
   ("MOBILE ", "MOBILE"),
   ("MVC ", "MVC"),
   ("MYSQ", "SQL"),
   ("NATURAL LA", "NLP"),
   ("NETBEAN", "NETBEANS"),
   ("NEURAL NE", "NEURAL NET"),
   ("NODE", "NODE JS"),
   ("OBJECT ORI", "OOP"),
   ("OPERATI", "OS"),
   ("ORACLE ", "ORACLE"),
   ("PHP ", "PHP"),
   ("POSTGR", "SQL"),
   ("PROJECT MANAGEMENT", "PROJECT MANAGEMENT"),
   ("PYTH", "PYTHON"),
   ("PYTOR", "PYTORCH"),
   ("QLIK", "QLIK"),
   ("R ", "R"),
   ("REACT", "REACT JS"),
   ("RECOVERY", "RECOVERY"),
   ("REGRESSION", "REGRESSION"),
   ("REGULAR EXP", "REGULAR EXPRESSION"),
   ("RELATIONAL", "SQL"),
   ("REST ", "API"),
   ("RUBY", "RUBY"),
   ("SAGE ", "SAGE"),
   ("SALESFORCE", "SALESFORCE"),
   ("SALES ", "SALES"),
   ("SAP ", "SAP"),
   ("SAS ", "SAS"),
   ("SCALA ", "SCALA"),
   ("SCIKI", "SCIKITLEARN"),
   ("SCO ", "SCO"),
   ("SCRUM", "SCRUM"),
   ("SEAGATE ", "SEAGATE"),
   ("SEARCH ENG", "SEO"),
   ("SECURITY", "SECURITY"),
   ("SERVER ", "SERVER "),
   ("SHELL ", "SHELL"),
   ("SIEBEL ", "SIEBEL"),
   ("SIEMEN", "SIEMENS"),
   ("SNOWFLAKE", "SNOWFLAKE"),
   ("SOA ", "SOA"),
   ("SOAP ", "SOAP"),
   ("SOCIAL MED", "SOCIAL MEDIA"),
   ("SOFTWARE ", "SW DEVELOPMENT"),
   ("SPRING ", "SPRING"),
   ("SQL ", "SQL"),
   ("STRUTS", "STRUTS"),
   ("SUBLIM", "SUBLIME TEXT"),
   ("TABLE", "TABLEAU"),
   ("TENSORF", "TENSORFLOW"),
   ("TERADA", "TERADATA"),
   ("TEST ", "TEST"),
   ("TIBCO ", "TIBCO"),
   ("UBUNT", "UBUNTU"),
   ("UI ", "UI"),
   ("USER I", "UI"),
   ("UNIT T", "TEST"),
   ("UNIX", "UNIX"),
   ("VISUAL BASIC", "VISUAL BASIC"),
   ("VMWARE", "VMWARE"),
   ("VULNERABILITY", "VULNERABILITY MANAGEMENT"),
   ("WAN ", "WAN"),
   ("WEB API", "API"),
   ("WEB ", "WEB"),
   ("WEBSPHERE", "WEBSPHERE"),
   ("WINDOWS AZ", "AZURE"),
   ("WIN ", "WINDOWS"),
   ("WINDOW", "WINDOWS"),
   ("ZEND", "ZEND"),
   ("PERSONAL HOME PAGE", "PHP")]

/-- Source `normalize_city_series` with the default separator: split,
explode, strip, upper, delete `)`, `]`, `?`, turn empty strings into NaN,
apply the city replacement mapping, squeeze. -/
def normalize_city_series (col : List Token) : Option (List Token) :=
  let locations := strSplitExplode citySep col
  let locations := mapTokens (Option.map sTrim) locations
  let locations := mapTokens (Option.map sUpper) locations
  let locations := mapTokens (Option.map (removeChars [')', ']', '?'])) locations
  let locations := mapTokens emptyToNan locations
  let locations := replace_series locations city_replacement_mapping
  squeeze_series locations

/-- Source `normalize_country_series` with the default separator. -/
def normalize_country_series (col : List Token) : Option (List Token) :=
  let locations := strSplitExplode citySep col
  let locations := mapTokens (Option.map sTrim) locations
  let locations := mapTokens (Option.map sUpper) locations
  let locations := mapTokens emptyToNan locations
  let locations := replace_series locations country_replacement_mapping
  squeeze_series locations

/-- Source `normalize_str_separated_series` with the default separator
`"[,;]"`: split, explode, strip, upper, squeeze (no replacement table, no
empty-to-NaN step). -/
def normalize_str_separated_series (col : List Token) : Option (List Token) :=
  let s := strSplitExplode strSep col
  let s := mapTokens (Option.map sTrim) s
  let s := mapTokens (Option.map sUpper) s
  squeeze_series s

/-- Source `normalize_skills_series` with the default separator: split,
explode, delete `)`, `]`, `?`, `.`, delete double quotes, delete single
quotes, strip, upper, empty-to-NaN, apply the skill replacement mapping,
re-split the rewritten values on `;`, strip again, squeeze. -/
def normalize_skills_series (col : List Token) : Option (List Token) :=
  let skills := strSplitExplode skillSep col
  let skills := mapTokens (Option.map (removeChars [')', ']', '?', '.'])) skills
  let skills := mapTokens (Option.map (removeChars [Char.ofNat 34])) skills
  let skills := mapTokens (Option.map (removeChars [Char.ofNat 39])) skills
  let skills := mapTokens (Option.map sTrim) skills
  let skills := mapTokens (Option.map sUpper) skills
  let skills := mapTokens emptyToNan skills
  let skills := replace_series skills skills_replacement_mapping
  let skills := explodeStream (splitCell semiSep) skills
  let skills := mapTokens (Option.map sTrim) skills
  squeeze_series skills

/-- Source `normalize_skills_series_extra`: run the base skill pipeline,
re-split its joined output on `;`, apply every prefix rule of the extra
dictionary in declaration order, squeeze again.  If the base pipeline
raises, so does the extended one. -/
def normalize_skills_series_extra (col : List Token) : Option (List Token) :=
  match normalize_skills_series col with
  | none => none
  | some s =>
    let st := strSplitExplode semiSep s
    let st := startswith_pass st extra_replacement_dict
    squeeze_series st

theorem mapTokens_append (f : Token → Token) (a b : TokStream) :
    mapTokens f (a ++ b) = mapTokens f a ++ mapTokens f b := by
  simp [mapTokens]

theorem mapTokens_tag (f : Token → Token) (k : Nat) (l : List Token) :
    mapTokens f (l.map (fun t => (k, t))) = (l.map f).map (fun t => (k, t)) := by
  induction l with
  | nil => rfl
  | cons x xs ih => simp_all [mapTokens]

theorem mapTokens_explodeFrom (f : Token → Token) (g : Token → List Token)
    (k : Nat) (col : List Token) :
    mapTokens f (explodeFrom g k col) = explodeFrom (fun c => (g c).map f) k col := by
  induction col generalizing k with
  | nil => rfl
  | cons c cs ih => simp only [explodeFrom, mapTokens_append, mapTokens_tag, ih]

theorem explodeStream_append (g2 : Token → List Token) (a b : TokStream) :
    explodeStream g2 (a ++ b) = explodeStream g2 a ++ explodeStream g2 b := by
  induction a with
  | nil => rfl
  | cons q qs ih => simp [explodeStream, ih, List.append_assoc]

theorem explodeStream_tag (g2 : Token → List Token) (k : Nat) (l : List Token) :
    explodeStream g2 (l.map (fun t => (k, t))) = (l.flatMap g2).map (fun t => (k, t)) := by
  induction l with
  | nil => rfl
  | cons x xs ih => simp [explodeStream, ih, List.map_append]

theorem explodeStream_explodeFrom (g2 g : Token → List Token) (k : Nat)
    (col : List Token) :
    explodeStream g2 (explodeFrom g k col) =
      explodeFrom (fun c => (g c).flatMap g2) k col := by
  induction col generalizing k with
  | nil => rfl
  | cons c cs ih => simp only [explodeFrom, explodeStream_append, explodeStream_tag, ih]

theorem mapTokens_id (st : TokStream) : mapTokens (fun t => t) st = st := by
  simp [mapTokens]

theorem mapTokens_comp (f1 f2 : Token → Token) (st : TokStream) :
    mapTokens f2 (mapTokens f1 st) = mapTokens (fun t => f2 (f1 t)) st := by
  simp [mapTokens, List.map_map, Function.comp]

theorem foldl_mapTokens {α : Type} (f : α → Token → Token) (tbl : List α) :
    ∀ st : TokStream,
      tbl.foldl (fun s e => mapTokens (f e) s) st =
        mapTokens (fun t => tbl.foldl (fun acc e => f e acc) t) st := by
  induction tbl with
  | nil => intro st; exact (mapTokens_id st).symm
  | cons e es ih =>
    intro st
    simp only [List.foldl_cons]
    rw [ih, mapTokens_comp]

theorem replace_series_eq (st : TokStream) (tbl : List (String × List String)) :
    replace_series st tbl = mapTokens (replaceToken tbl) st :=
  foldl_mapTokens (fun e t => replaceEntry e t) tbl st

theorem startswith_pass_eq (st : TokStream) (tbl : List (String × String)) :
    startswith_pass st tbl = mapTokens (startswithToken tbl) st :=
  foldl_mapTokens (fun (e : String × String) t => replace_if_startswith t e.1 e.2) tbl st

theorem explodeFrom_map_col (g : Token → List Token) (f : Token → Token) (k : Nat)
    (col : List Token) :
    explodeFrom g k (col.map f) = explodeFrom (fun c => g (f c)) k col := by
  induction col generalizing k with
  | nil => rfl
  | cons c cs ih => simp only [List.map_cons, explodeFrom, ih]

theorem splitChars_ne_nil (p : Char → Bool) (l : List Char) : splitChars p l ≠ [] := by
  cases l with
  | nil => simp [splitChars]
  | cons c cs =>
    simp only [splitChars]
    split
    · simp
    · split <;> simp

theorem splitCell_ne_nil (p : Char → Bool) (c : Token) : splitCell p c ≠ [] := by
  cases c with
  | none => simp [splitCell]
  | some s =>
    simp only [splitCell, strSplit, ne_eq, List.map_eq_nil_iff]
    exact splitChars_ne_nil p s.data

theorem mem_explodeFrom_key {g : Token → List Token} :
    ∀ {k : Nat} {col : List Token} {q : Nat × Token},
      q ∈ explodeFrom g k col → k ≤ q.1 ∧ q.1 < k + col.length := by
  intro k col
  induction col generalizing k with
  | nil => intro q h; simp [explodeFrom] at h
  | cons c cs ih =>
    intro q h
    simp only [explodeFrom, List.mem_append, List.mem_map] at h
    rcases h with ⟨t, _, rfl⟩ | h
    · simp [List.length_cons]
    · have := ih h
      simp only [List.length_cons]
      omega

theorem exists_key_explodeFrom {g : Token → List Token} (hg : ∀ c, g c ≠ []) :
    ∀ (k : Nat) (col : List Token) (i : Nat), k ≤ i → i < k + col.length →
      ∃ q ∈ explodeFrom g k col, q.1 = i := by
  intro k col
  induction col generalizing k with
  | nil => intro i h1 h2; simp at h2; omega
  | cons c cs ih =>
    intro i h1 h2
    by_cases hik : i = k
    · obtain ⟨t, ht⟩ := List.exists_mem_of_ne_nil (g c) (hg c)
      refine ⟨(k, t), ?_, hik.symm⟩
      simp only [explodeFrom, List.mem_append, List.mem_map]
      exact Or.inl ⟨t, ht, rfl⟩
    · have h1' : k + 1 ≤ i := by omega
      have h2' : i < (k + 1) + cs.length := by
        simp only [List.length_cons] at h2
        omega
      obtain ⟨q, hq, hqi⟩ := ih (k + 1) i h1' h2'
      refine ⟨q, ?_, hqi⟩
      simp only [explodeFrom, List.mem_append]
      exact Or.inr hq

theorem foldl_max_init_le :
    ∀ (st : TokStream) (a : Nat), a ≤ st.foldl (fun m q => max m q.1) a := by
  intro st
  induction st with
  | nil => intro a; simp
  | cons q qs ih =>
    intro a
    simp only [List.foldl_cons]
    exact le_trans (le_max_left a q.1) (ih (max a q.1))

theorem foldl_max_mem_le :
    ∀ (st : TokStream) (a : Nat) (q : Nat × Token), q ∈ st →
      q.1 ≤ st.foldl (fun m q => max m q.1) a := by
  intro st
  induction st with
  | nil => intro a q h; simp at h
  | cons r rs ih =>
    intro a q h
    simp only [List.foldl_cons]
    rcases List.mem_cons.mp h with rfl | h
    · exact le_trans (le_max_right a q.1) (foldl_max_init_le rs (max a q.1))
    · exact ih (max a r.1) q h

theorem foldl_max_cases :
    ∀ (st : TokStream) (a : Nat),
      st.foldl (fun m q => max m q.1) a = a ∨
        ∃ q ∈ st, st.foldl (fun m q => max m q.1) a = q.1 := by
  intro st
  induction st with
  | nil => intro a; exact Or.inl rfl
  | cons r rs ih =>
    intro a
    simp only [List.foldl_cons]
    rcases ih (max a r.1) with h | ⟨q, hq, hv⟩
    · rcases Nat.le_total a r.1 with hle | hle
      · exact Or.inr ⟨r, List.mem_cons_self r rs, by rw [h]; exact (max_eq_right hle).symm ▸ rfl⟩
      · exact Or.inl (by rw [h]; exact max_eq_left hle)
    · exact Or.inr ⟨q, List.mem_cons_of_mem r hq, hv⟩

theorem groupKeys_explodeFrom {g : Token → List Token} (hg : ∀ c, g c ≠ [])
    (col : List Token) :
    groupKeys (explodeFrom g 0 col) = List.range col.length := by
  cases hcol : col with
  | nil => rfl
  | cons c0 cs =>
    have hn : 0 < col.length := by rw [hcol]; simp
    rw [← hcol]
    set st := explodeFrom g 0 col with hst
    set n := col.length with hlen
    have hmax : st.foldl (fun m q => max m q.1) 0 = n - 1 := by
      have hub : st.foldl (fun m q => max m q.1) 0 ≤ n - 1 := by
        rcases foldl_max_cases st 0 with h | ⟨q, hq, hv⟩
        · omega
        · have := mem_explodeFrom_key (hst ▸ hq)
          omega
      have hlb : n - 1 ≤ st.foldl (fun m q => max m q.1) 0 := by
        obtain ⟨q, hq, hqi⟩ :=
          exists_key_explodeFrom hg 0 col (n - 1) (Nat.zero_le _) (by omega)
        have := foldl_max_mem_le st 0 q (hst ▸ hq)
        omega
      omega
    unfold groupKeys
    rw [hmax]
    have hrange : n - 1 + 1 = n := by omega
    rw [hrange]
    apply List.filter_eq_self.mpr
    intro i hi
    have hi' : i < n := List.mem_range.mp hi
    obtain ⟨q, hq, hqi⟩ := exists_key_explodeFrom hg 0 col i (Nat.zero_le _) (by omega)
    exact List.any_eq_true.mpr ⟨q, hst ▸ hq, beq_iff_eq.mpr hqi⟩

theorem filter_explodeFrom {g : Token → List Token} :
    ∀ (k j : Nat) (col : List Token) (c : Token), col[j]? = some c →
      (explodeFrom g k col).filter (fun q => q.1 == k + j) =
        (g c).map (fun t => (k + j, t)) := by
  intro k j col
  induction col generalizing k j with
  | nil => intro c h; simp at h
  | cons c0 cs ih =>
    intro c h
    cases j with
    | zero =>
      simp only [List.getElem?_cons_zero, Option.some.injEq] at h
      subst h
      simp only [explodeFrom, List.filter_append]
      have h1 : ((g c0).map (fun t => (k, t))).filter (fun q => q.1 == k + 0) =
          (g c0).map (fun t => (k + 0, t)) := by
        simp
      have h2 : (explodeFrom g (k + 1) cs).filter (fun q => q.1 == k + 0) = [] := by
        rw [List.filter_eq_nil_iff]
        intro q hq
        have := mem_explodeFrom_key hq
        simp only [beq_iff_eq]
        omega
      rw [h1, h2, List.append_nil]
    | succ j' =>
      have h' : cs[j']? = some c := by simpa using h
      simp only [explodeFrom, List.filter_append]
      have h1 : ((g c0).map (fun t => (k, t))).filter (fun q => q.1 == k + (j' + 1)) = [] := by
        rw [List.filter_eq_nil_iff]
        intro q hq
        obtain ⟨t, _, rfl⟩ := List.mem_map.mp hq
        simp only [beq_iff_eq]
        omega
      have hadd : k + (j' + 1) = (k + 1) + j' := by omega
      rw [h1, List.nil_append, hadd, ih (k + 1) j' c h']

theorem groupOf_explodeFrom (g : Token → List Token) (col : List Token) (i : Nat)
    (c : Token) (h : col[i]? = some c) :
    groupOf (explodeFrom g 0 col) i = g c := by
  unfold groupOf
  have hz : i = 0 + i := by omega
  rw [hz, filter_explodeFrom 0 i col c h]
  simp [List.map_map, Function.comp]

theorem dfSqueeze_frame (rs : List (Nat × List Token)) (h : rs.length ≠ 1) :
    dfSqueeze rs = Squeezed.frame rs := by
  match rs with
  | [] => rfl
  | [r] => simp at h
  | r1 :: r2 :: rest => rfl

theorem squeeze_explodeFrom {g : Token → List Token} (hg : ∀ c, g c ≠ [])
    (col : List Token) (h : col.length ≠ 1) :
    squeeze_series (explodeFrom g 0 col) = some (col.map (fun c => setJoin (g c))) := by
  unfold squeeze_series agg_set
  rw [groupKeys_explodeFrom hg]
  rw [dfSqueeze_frame _ (by simpa using h)]
  simp only [strJoinSemi, List.map_map, Option.some.injEq]
  apply List.ext_getElem?
  intro i
  simp only [List.getElem?_map]
  rcases Nat.lt_or_ge i col.length with hi | hi
  · have hr : (List.range col.length)[i]? = some i := List.getElem?_range hi
    obtain ⟨c, hc⟩ : ∃ x, col[i]? = some x := ⟨_, List.getElem?_eq_getElem hi⟩
    rw [hr, hc]
    show some (setJoin (groupOf (explodeFrom g 0 col) i)) = some (setJoin (g c))
    rw [groupOf_explodeFrom g col i c hc]
  · have hr : (List.range col.length)[i]? = none := by
      apply List.getElem?_eq_none
      simpa using hi
    have hc : col[i]? = none := List.getElem?_eq_none hi
    rw [hr, hc]
    simp

theorem squeeze_explodeFrom_single (g : Token → List Token) (hg : ∀ c, g c ≠ [])
    (c : Token) :
    squeeze_series (explodeFrom g 0 [c]) = none := by
  unfold squeeze_series agg_set
  rw [groupKeys_explodeFrom hg]
  rfl

theorem flatMap_ne_nil {l : List Token} {f : Token → List Token} (hl : l ≠ [])
    (hf : ∀ x, f x ≠ []) : l.flatMap f ≠ [] := by
  cases l with
  | nil => exact absurd rfl hl
  | cons a as =>
    simp only [List.flatMap_cons, ne_eq, List.append_eq_nil]
    intro ⟨h1, _⟩
    exact hf a h1

/-- Per-row token list of the city pipeline before aggregation (derived
from the source pipeline by pushing the element-wise steps under the
explode). -/
def cityRowTokens (c : Token) : List Token :=
  (((((splitCell citySep c).map (Option.map sTrim)).map (Option.map sUpper)).map
      (Option.map (removeChars [')', ']', '?']))).map emptyToNan).map
    (replaceToken city_replacement_mapping)

/-- The city pipeline's cleaned value for one row. -/
def cityRow (c : Token) : Token := setJoin (cityRowTokens c)

theorem normalize_city_eq_squeeze (col : List Token) :
    normalize_city_series col = squeeze_series (explodeFrom cityRowTokens 0 col) := by
  unfold normalize_city_series strSplitExplode
  dsimp only
  rw [replace_series_eq]
  simp only [mapTokens_explodeFrom]
  rfl

theorem cityRowTokens_ne_nil (c : Token) : cityRowTokens c ≠ [] := by
  simp only [cityRowTokens, ne_eq, List.map_eq_nil_iff]
  exact splitCell_ne_nil citySep c

theorem city_norm (col : List Token) (h : col.length ≠ 1) :
    normalize_city_series col = some (col.map cityRow) := by
  rw [normalize_city_eq_squeeze]
  exact squeeze_explodeFrom (fun c => cityRowTokens_ne_nil c) col h

theorem city_single (c : Token) : normalize_city_series [c] = none := by
  rw [normalize_city_eq_squeeze]
  exact squeeze_explodeFrom_single cityRowTokens (fun c => cityRowTokens_ne_nil c) c

/-- Per-row token list of the country pipeline before aggregation. -/
def countryRowTokens (c : Token) : List Token :=
  ((((splitCell citySep c).map (Option.map sTrim)).map (Option.map sUpper)).map
      emptyToNan).map (replaceToken country_replacement_mapping)

/-- The country pipeline's cleaned value for one row. -/
def countryRow (c : Token) : Token := setJoin (countryRowTokens c)

theorem normalize_country_eq_squeeze (col : List Token) :
    normalize_country_series col =
      squeeze_series (explodeFrom countryRowTokens 0 col) := by
  unfold normalize_country_series strSplitExplode
  dsimp only
  rw [replace_series_eq]
  simp only [mapTokens_explodeFrom]
  rfl

theorem countryRowTokens_ne_nil (c : Token) : countryRowTokens c ≠ [] := by
  simp only [countryRowTokens, ne_eq, List.map_eq_nil_iff]
  exact splitCell_ne_nil citySep c

theorem country_norm (col : List Token) (h : col.length ≠ 1) :
    normalize_country_series col = some (col.map countryRow) := by
  rw [normalize_country_eq_squeeze]
  exact squeeze_explodeFrom (fun c => countryRowTokens_ne_nil c) col h

theorem country_single (c : Token) : normalize_country_series [c] = none := by
  rw [normalize_country_eq_squeeze]
  exact squeeze_explodeFrom_single countryRowTokens
    (fun c => countryRowTokens_ne_nil c) c

/-- Per-row token list of the generic-list pipeline before aggregation. -/
def strsepRowTokens (c : Token) : List Token :=
  ((splitCell strSep c).map (Option.map sTrim)).map (Option.map sUpper)

/-- The generic-list pipeline's cleaned value for one row. -/
def strsepRow (c : Token) : Token := setJoin (strsepRowTokens c)

theorem normalize_strsep_eq_squeeze (col : List Token) :
    normalize_str_separated_series col =
      squeeze_series (explodeFrom strsepRowTokens 0 col) := by
  unfold normalize_str_separated_series strSplitExplode
  dsimp only
  simp only [mapTokens_explodeFrom]
  rfl

theorem strsepRowTokens_ne_nil (c : Token) : strsepRowTokens c ≠ [] := by
  simp only [strsepRowTokens, ne_eq, List.map_eq_nil_iff]
  exact splitCell_ne_nil strSep c

theorem strsep_norm (col : List Token) (h : col.length ≠ 1) :
    normalize_str_separated_series col = some (col.map strsepRow) := by
  rw [normalize_strsep_eq_squeeze]
  exact squeeze_explodeFrom (fun c => strsepRowTokens_ne_nil c) col h

theorem strsep_single (c : Token) : normalize_str_separated_series [c] = none := by
  rw [normalize_strsep_eq_squeeze]
  exact squeeze_explodeFrom_single strsepRowTokens
    (fun c => strsepRowTokens_ne_nil c) c

/-- Per-row token list of the base skill pipeline after the exact-match
rewrite but before the `;`-expansion. -/
def skillsBaseTokens (c : Token) : List Token :=
  (((((((splitCell skillSep c).map
      (Option.map (removeChars [')', ']', '?', '.']))).map
      (Option.map (removeChars [Char.ofNat 34]))).map
      (Option.map (removeChars [Char.ofNat 39]))).map
      (Option.map sTrim)).map (Option.map sUpper)).map emptyToNan).map
    (replaceToken skills_replacement_mapping)

/-- Per-row token list of the base skill pipeline before aggregation
(after the `;`-expansion and final strip). -/
def skillsRowTokens (c : Token) : List Token :=
  ((skillsBaseTokens c).flatMap (splitCell semiSep)).map (Option.map sTrim)

/-- The base skill pipeline's cleaned value for one row. -/
def skillsRow (c : Token) : Token := setJoin (skillsRowTokens c)

theorem normalize_skills_eq_squeeze (col : List Token) :
    normalize_skills_series col =
      squeeze_series (explodeFrom skillsRowTokens 0 col) := by
  unfold normalize_skills_series strSplitExplode
  dsimp only
  rw [replace_series_eq]
  simp only [mapTokens_explodeFrom, explodeStream_explodeFrom]
  rfl

theorem skillsRowTokens_ne_nil (c : Token) : skillsRowTokens c ≠ [] := by
  simp only [skillsRowTokens, ne_eq, List.map_eq_nil_iff]
  apply flatMap_ne_nil
  · simp only [skillsBaseTokens, ne_eq, List.map_eq_nil_iff]
    exact splitCell_ne_nil skillSep c
  · exact fun x => splitCell_ne_nil semiSep x

theorem skills_norm (col : List Token) (h : col.length ≠ 1) :
    normalize_skills_series col = some (col.map skillsRow) := by
  rw [normalize_skills_eq_squeeze]
  exact squeeze_explodeFrom (fun c => skillsRowTokens_ne_nil c) col h

theorem skills_single (c : Token) : normalize_skills_series [c] = none := by
  rw [normalize_skills_eq_squeeze]
  exact squeeze_explodeFrom_single skillsRowTokens
    (fun c => skillsRowTokens_ne_nil c) c

/-- Per-row token list of the extended skill pipeline before its final
aggregation: the base pipeline's joined row value re-split on `;`, each
piece run through the whole prefix-rule dictionary. -/
def extraRowTokens (c : Token) : List Token :=
  (splitCell semiSep (skillsRow c)).map (startswithToken extra_replacement_dict)

/-- The extended skill pipeline's cleaned value for one row. -/
def extraRow (c : Token) : Token := setJoin (extraRowTokens c)

theorem extraRowTokens_ne_nil (c : Token) : extraRowTokens c ≠ [] := by
  simp only [extraRowTokens, ne_eq, List.map_eq_nil_iff]
  exact splitCell_ne_nil semiSep (skillsRow c)

theorem extra_norm (col : List Token) (h : col.length ≠ 1) :
    normalize_skills_series_extra col = some (col.map extraRow) := by
  unfold normalize_skills_series_extra
  rw [skills_norm col h]
  unfold strSplitExplode
  dsimp only
  rw [explodeFrom_map_col, startswith_pass_eq]
  simp only [mapTokens_explodeFrom]
  exact squeeze_explodeFrom (fun c => extraRowTokens_ne_nil c) col h

theorem extra_single (c : Token) : normalize_skills_series_extra [c] = none := by
  unfold normalize_skills_series_extra
  rw [skills_single c]

/-- A token is semicolon-free: if it is a string, it contains no `;`. -/
def TokSemiFree (t : Token) : Prop := ∀ s, t = some s → ';' ∉ s.data

theorem mem_splitChars_not_p (p : Char → Bool) :
    ∀ (l : List Char), ∀ piece ∈ splitChars p l, ∀ c ∈ piece, p c = false := by
  intro l
  induction l with
  | nil =>
    intro piece hp c hc
    simp only [splitChars, List.mem_singleton] at hp
    subst hp
    simp at hc
  | cons a as ih =>
    intro piece hp c hc
    simp only [splitChars] at hp
    by_cases hpa : p a = true
    · rw [if_pos hpa] at hp
      rcases List.mem_cons.mp hp with rfl | hp
      · simp at hc
      · exact ih piece hp c hc
    · rw [if_neg hpa] at hp
      have hpa' : p a = false := by
        cases hv : p a
        · rfl
        · exact absurd hv hpa
      cases hsc : splitChars p as with
      | nil => exact absurd hsc (splitChars_ne_nil p as)
      | cons q qs =>
        rw [hsc] at hp
        rcases List.mem_cons.mp hp with rfl | hp
        · rcases List.mem_cons.mp hc with rfl | hc
          · exact hpa'
          · exact ih q (hsc ▸ List.mem_cons_self q qs) c hc
        · exact ih piece (hsc ▸ List.mem_cons_of_mem q hp) c hc

theorem splitChars_no_sep (p : Char → Bool) :
    ∀ (l : List Char), (∀ c ∈ l, p c = false) → splitChars p l = [l] := by
  intro l
  induction l with
  | nil => intro _; rfl
  | cons a as ih =>
    intro h
    have ha : p a = false := h a (List.mem_cons_self a as)
    have has : splitChars p as = [as] :=
      ih (fun c hc => h c (List.mem_cons_of_mem a hc))
    simp only [splitChars, ha, has]
    rfl

theorem splitChars_append_sep (p : Char → Bool) (d : Char) (hd : p d = true) :
    ∀ (x r : List Char), (∀ c ∈ x, p c = false) →
      splitChars p (x ++ d :: r) = x :: splitChars p r := by
  intro x
  induction x with
  | nil =>
    intro r _
    simp only [List.nil_append, splitChars, hd]
    rfl
  | cons a as ih =>
    intro r h
    have ha : p a = false := h a (List.mem_cons_self a as)
    have hih := ih r (fun c hc => h c (List.mem_cons_of_mem a hc))
    simp [splitChars, ha, hih]

theorem splitChars_joinData (p : Char → Bool) (hp : p ';' = true) :
    ∀ (L : List (List Char)), L ≠ [] → (∀ x ∈ L, ∀ c ∈ x, p c = false) →
      splitChars p (joinData L) = L := by
  intro L
  induction L with
  | nil => intro h _; exact absurd rfl h
  | cons x xs ih =>
    intro _ h
    cases xs with
    | nil =>
      simp only [joinData]
      exact splitChars_no_sep p x (h x (List.mem_cons_self x []))
    | cons y ys =>
      simp only [joinData]
      rw [splitChars_append_sep p ';' hp x _ (h x (List.mem_cons_self x _))]
      rw [ih (by simp) (fun z hz c hc => h z (List.mem_cons_of_mem x hz) c hc)]

theorem filterMap_id_ne_nil {g : List Token} (hg : g ≠ []) (hn : none ∉ g) :
    g.filterMap id ≠ [] := by
  cases g with
  | nil => exact absurd rfl hg
  | cons a as =>
    cases a with
    | none => exact absurd (List.mem_cons_self none as) hn
    | some x => simp [List.filterMap_cons]

theorem mapDataMk : ∀ (D : List String), (D.map String.data).map String.mk = D := by
  intro D
  induction D with
  | nil => rfl
  | cons a as ih =>
    simp only [List.map_cons]
    rw [ih]

theorem setJoin_resplit (g : List Token) (s : String) (hg : g ≠ [])
    (hfree : ∀ t ∈ g, TokSemiFree t) (h : setJoin g = some s) :
    resplitSemi s = (g.filterMap id).dedup := by
  unfold setJoin at h
  by_cases hn : none ∈ g
  · simp [hn] at h
  · rw [if_neg hn] at h
    injection h with h
    subst h
    unfold resplitSemi strSplit
    have hL : ((g.filterMap id).dedup.map String.data) ≠ [] := by
      simp only [ne_eq, List.map_eq_nil_iff, List.dedup_eq_nil]
      exact filterMap_id_ne_nil hg hn
    have hfree2 : ∀ x ∈ (g.filterMap id).dedup.map String.data, ∀ c ∈ x,
        (fun c => c == ';') c = false := by
      intro x hx c hc
      obtain ⟨str, hstr, rfl⟩ := List.mem_map.mp hx
      have hstr2 : str ∈ g.filterMap id := List.mem_dedup.mp hstr
      obtain ⟨t, ht, hid⟩ := List.mem_filterMap.mp hstr2
      have hts : t = some str := hid
      have hf := hfree t ht str hts
      simp only [beq_eq_false_iff_ne, ne_eq]
      intro hcc
      subst hcc
      exact hf hc
    have hdata : (String.mk (joinData ((g.filterMap id).dedup.map String.data))).data =
        joinData ((g.filterMap id).dedup.map String.data) := rfl
    rw [hdata]
    rw [splitChars_joinData _ (by simp) _ hL hfree2]
    exact mapDataMk _

theorem setJoin_none_mem {g : List Token} (hn : none ∈ g) : setJoin g = none := by
  simp [setJoin, hn]

theorem charUpper_semi {c : Char} (h : charUpper c = ';') : c = ';' := by
  unfold charUpper at h
  cases hf : upperPairs.find? (fun p => p.1 == c) with
  | none => rw [hf] at h; exact h
  | some q =>
    rw [hf] at h
    have hq : q ∈ upperPairs := List.mem_of_find?_eq_some hf
    have h2 : ∀ p ∈ upperPairs, p.2 ≠ ';' := by decide
    exact absurd h (h2 q hq)

theorem sUpper_semifree {s : String} (h : ';' ∉ s.data) : ';' ∉ (sUpper s).data := by
  intro hc
  have hc' : ';' ∈ s.data.map charUpper := hc
  obtain ⟨c, hcm, hcu⟩ := List.mem_map.mp hc'
  exact h ((charUpper_semi hcu) ▸ hcm)

theorem trimChars_subset {l : List Char} : ∀ c ∈ trimChars l, c ∈ l := by
  intro c hc
  unfold trimChars at hc
  rw [List.mem_reverse] at hc
  have h1 : c ∈ (l.dropWhile isWs).reverse := (List.dropWhile_sublist isWs).mem hc
  rw [List.mem_reverse] at h1
  exact (List.dropWhile_sublist isWs).mem h1

theorem sTrim_semifree {s : String} (h : ';' ∉ s.data) : ';' ∉ (sTrim s).data := by
  intro hc
  exact h (trimChars_subset ';' hc)

theorem removeChars_semifree (bad : List Char) {s : String} (h : ';' ∉ s.data) :
    ';' ∉ (removeChars bad s).data := by
  intro hc
  have hc' : ';' ∈ s.data.filter (fun c => !(bad.contains c)) := hc
  exact h (List.mem_of_mem_filter hc')

theorem tokMap_semifree {f : String → String}
    (hf : ∀ s, ';' ∉ s.data → ';' ∉ (f s).data) {t : Token} (ht : TokSemiFree t) :
    TokSemiFree (Option.map f t) := by
  intro s hs
  cases t with
  | none => simp at hs
  | some v =>
    injection hs with hs
    subst hs
    exact hf v (ht v rfl)

theorem emptyToNan_semifree {t : Token} (ht : TokSemiFree t) :
    TokSemiFree (emptyToNan t) := by
  intro s hs
  unfold emptyToNan at hs
  split at hs
  · exact absurd hs (by simp)
  · exact ht s hs

theorem replaceEntry_semifree {e : String × List String} (he : ';' ∉ e.1.data)
    {t : Token} (ht : TokSemiFree t) : TokSemiFree (replaceEntry e t) := by
  intro s hs
  cases t with
  | none => simp [replaceEntry] at hs
  | some v =>
    have hv : replaceEntry e (some v) = if v ∈ e.2 then some e.1 else some v := rfl
    rw [hv] at hs
    split at hs
    · injection hs with hs
      subst hs
      exact he
    · injection hs with hs
      subst hs
      exact ht v rfl

theorem replaceToken_semifree {tbl : List (String × List String)}
    (htbl : ∀ e ∈ tbl, ';' ∉ e.1.data) {t : Token} (ht : TokSemiFree t) :
    TokSemiFree (replaceToken tbl t) := by
  induction tbl generalizing t with
  | nil => exact ht
  | cons e es ih =>
    exact ih (fun e' he' => htbl e' (List.mem_cons_of_mem e he'))
      (replaceEntry_semifree (htbl e (List.mem_cons_self e es)) ht)

theorem replace_if_startswith_semifree {pat repl : String} (hr : ';' ∉ repl.data)
    {t : Token} (ht : TokSemiFree t) :
    TokSemiFree (replace_if_startswith t pat repl) := by
  intro s hs
  cases t with
  | none => simp [replace_if_startswith] at hs
  | some v =>
    have hv : replace_if_startswith (some v) pat repl =
        if startsWithCL pat.data v.data then some repl else some v := rfl
    rw [hv] at hs
    split at hs
    · injection hs with hs
      subst hs
      exact hr
    · injection hs with hs
      subst hs
      exact ht v rfl

theorem startswithToken_semifree {tbl : List (String × String)}
    (htbl : ∀ e ∈ tbl, ';' ∉ e.2.data) {t : Token} (ht : TokSemiFree t) :
    TokSemiFree (startswithToken tbl t) := by
  induction tbl generalizing t with
  | nil => exact ht
  | cons e es ih =>
    exact ih (fun e' he' => htbl e' (List.mem_cons_of_mem e he'))
      (replace_if_startswith_semifree (htbl e (List.mem_cons_self e es)) ht)

theorem splitCell_semifree {p : Char → Bool} (hp : p ';' = true) (c : Token) :
    ∀ t ∈ splitCell p c, TokSemiFree t := by
  intro t ht
  cases c with
  | none =>
    simp only [splitCell, List.mem_singleton] at ht
    subst ht
    intro s hs
    simp at hs
  | some str =>
    simp only [splitCell, strSplit, List.map_map] at ht
    obtain ⟨chars, hc2, rfl⟩ := List.mem_map.mp ht
    intro s hs
    injection hs with hs
    subst hs
    intro hmem
    have hfalse := mem_splitChars_not_p p str.data chars hc2 ';' hmem
    rw [hp] at hfalse
    exact absurd hfalse (by simp)

theorem mem_map_semifree {l : List Token} {f : Token → Token}
    (hl : ∀ t ∈ l, TokSemiFree t) (hf : ∀ t, TokSemiFree t → TokSemiFree (f t)) :
    ∀ t ∈ l.map f, TokSemiFree t := by
  intro t ht
  obtain ⟨u, hu, rfl⟩ := List.mem_map.mp ht
  exact hf u (hl u hu)

theorem mem_flatMap_semifree {l : List Token} {f : Token → List Token}
    (hf : ∀ u, ∀ t ∈ f u, TokSemiFree t) : ∀ t ∈ l.flatMap f, TokSemiFree t := by
  intro t ht
  obtain ⟨u, _, htu⟩ := List.mem_flatMap.mp ht
  exact hf u t htu

theorem cityTbl_semifree : ∀ e ∈ city_replacement_mapping, ';' ∉ e.1.data := by
  decide

theorem countryTbl_semifree : ∀ e ∈ country_replacement_mapping, ';' ∉ e.1.data := by
  decide

theorem extraTbl_semifree : ∀ e ∈ extra_replacement_dict, ';' ∉ e.2.data := by
  decide

theorem cityRowTokens_semifree (c : Token) : ∀ t ∈ cityRowTokens c, TokSemiFree t := by
  unfold cityRowTokens
  exact mem_map_semifree
    (mem_map_semifree
      (mem_map_semifree
        (mem_map_semifree
          (mem_map_semifree (splitCell_semifree (by decide) c)
            (fun t ht => tokMap_semifree (fun s hs => sTrim_semifree hs) ht))
          (fun t ht => tokMap_semifree (fun s hs => sUpper_semifree hs) ht))
        (fun t ht => tokMap_semifree
          (fun s hs => removeChars_semifree [')', ']', '?'] hs) ht))
      (fun t ht => emptyToNan_semifree ht))
    (fun t ht => replaceToken_semifree cityTbl_semifree ht)

theorem countryRowTokens_semifree (c : Token) :
    ∀ t ∈ countryRowTokens c, TokSemiFree t := by
  unfold countryRowTokens
  exact mem_map_semifree
    (mem_map_semifree
      (mem_map_semifree
        (mem_map_semifree (splitCell_semifree (by decide) c)
          (fun t ht => tokMap_semifree (fun s hs => sTrim_semifree hs) ht))
        (fun t ht => tokMap_semifree (fun s hs => sUpper_semifree hs) ht))
      (fun t ht => emptyToNan_semifree ht))
    (fun t ht => replaceToken_semifree countryTbl_semifree ht)

theorem strsepRowTokens_semifree (c : Token) :
    ∀ t ∈ strsepRowTokens c, TokSemiFree t := by
  unfold strsepRowTokens
  exact mem_map_semifree
    (mem_map_semifree (splitCell_semifree (by decide) c)
      (fun t ht => tokMap_semifree (fun s hs => sTrim_semifree hs) ht))
    (fun t ht => tokMap_semifree (fun s hs => sUpper_semifree hs) ht)

theorem skillsRowTokens_semifree (c : Token) :
    ∀ t ∈ skillsRowTokens c, TokSemiFree t := by
  unfold skillsRowTokens
  exact mem_map_semifree
    (mem_flatMap_semifree (fun u => splitCell_semifree (by decide) u))
    (fun t ht => tokMap_semifree (fun s hs => sTrim_semifree hs) ht)

theorem extraRowTokens_semifree (c : Token) :
    ∀ t ∈ extraRowTokens c, TokSemiFree t := by
  unfold extraRowTokens
  exact mem_map_semifree (splitCell_semifree (by decide) (skillsRow c))
    (fun t ht => startswithToken_semifree extraTbl_semifree ht)

theorem replaceToken_none (tbl : List (String × List String)) :
    replaceToken tbl none = none := by
  induction tbl with
  | nil => rfl
  | cons e es ih => exact ih

theorem replaceToken_not_mem {tbl : List (String × List String)} {v : String}
    (h : ∀ e ∈ tbl, v ∉ e.2) : replaceToken tbl (some v) = some v := by
  induction tbl with
  | nil => rfl
  | cons e es ih =>
    have h1 : replaceEntry e (some v) = some v := by
      show (if v ∈ e.2 then some e.1 else some v) = some v
      rw [if_neg (h e (List.mem_cons_self e es))]
    show replaceToken es (replaceEntry e (some v)) = some v
    rw [h1]
    exact ih (fun e' he' => h e' (List.mem_cons_of_mem e he'))

theorem replaceToken_append (t1 t2 : List (String × List String)) (t : Token) :
    replaceToken (t1 ++ t2) t = replaceToken t2 (replaceToken t1 t) := by
  unfold replaceToken
  rw [List.foldl_append]

/-- The expanded canonical tags of an exact-match table: every canonical
value, split on the canonical separator `;`. -/
def canonicalTags (tbl : List (String × List String)) : List String :=
  (tbl.map (fun e => e.1)).flatMap (fun cv => strSplit semiSep cv)

theorem cityRowTokens_none_of_empty {c piece : String}
    (hp : piece ∈ strSplit citySep c) (he : sTrim piece = "") :
    none ∈ cityRowTokens (some c) := by
  have h0 : some piece ∈ splitCell citySep (some c) := List.mem_map_of_mem some hp
  have h1 := List.mem_map_of_mem (Option.map sTrim) h0
  have h2 := List.mem_map_of_mem (Option.map sUpper) h1
  have h3 := List.mem_map_of_mem (Option.map (removeChars [')', ']', '?'])) h2
  have h4 := List.mem_map_of_mem emptyToNan h3
  have h5 := List.mem_map_of_mem (replaceToken city_replacement_mapping) h4
  have hval : replaceToken city_replacement_mapping
      (emptyToNan (Option.map (removeChars [')', ']', '?'])
        (Option.map sUpper (Option.map sTrim (some piece))))) = none := by
    have hst : Option.map sTrim (some piece) = some "" := by
      show some (sTrim piece) = some ""
      rw [he]
    rw [hst]
    decide
  exact hval ▸ h5

theorem row_out {pipe : List Token → Option (List Token)} {row : Token → Token}
    (hnorm : ∀ col, col.length ≠ 1 → pipe col = some (col.map row))
    (hsingle : ∀ c, pipe [c] = none)
    {col out : List Token} {i : Nat} {c : Token}
    (hi : col[i]? = some c) (hout : pipe col = some out) :
    out[i]? = some (row c) := by
  by_cases hl : col.length = 1
  · obtain ⟨c0, rfl⟩ := List.length_eq_one.mp hl
    rw [hsingle c0] at hout
    exact absurd hout (by simp)
  · rw [hnorm col hl] at hout
    injection hout with hout
    subst hout
    rw [List.getElem?_map, hi]
    rfl

theorem pipe_row_nodup {pipe : List Token → Option (List Token)}
    {row : Token → Token} {rowTokens : Token → List Token}
    (hrowdef : ∀ c, row c = setJoin (rowTokens c))
    (hnorm : ∀ col, col.length ≠ 1 → pipe col = some (col.map row))
    (hsingle : ∀ c, pipe [c] = none)
    (hne : ∀ c, rowTokens c ≠ [])
    (hfree : ∀ c, ∀ t ∈ rowTokens c, TokSemiFree t)
    {col out : List Token} {i : Nat} {s : String}
    (hout : pipe col = some out) (hs : out[i]? = some (some s)) :
    (resplitSemi s).Nodup := by
  by_cases hl : col.length = 1
  · obtain ⟨c0, rfl⟩ := List.length_eq_one.mp hl
    rw [hsingle c0] at hout
    exact absurd hout (by simp)
  · rw [hnorm col hl] at hout
    injection hout with hout
    subst hout
    rw [List.getElem?_map] at hs
    cases hc : col[i]? with
    | none => rw [hc] at hs; simp at hs
    | some c =>
      rw [hc] at hs
      injection hs with hs
      have hjoin : setJoin (rowTokens c) = some s := (hrowdef c) ▸ hs
      rw [setJoin_resplit (rowTokens c) s (hne c) (hfree c) hjoin]
      exact List.nodup_dedup _

theorem agg_set_length (st : TokStream) : (agg_set st).length = (groupKeys st).length := by
  simp [agg_set]

theorem city_idem_tags : ∀ t ∈ canonicalTags city_replacement_mapping,
    replaceToken city_replacement_mapping
        (replaceToken city_replacement_mapping (some t)) =
      replaceToken city_replacement_mapping (some t) := by
  decide

theorem country_idem_tags : ∀ t ∈ canonicalTags country_replacement_mapping,
    replaceToken country_replacement_mapping
        (replaceToken country_replacement_mapping (some t)) =
      replaceToken country_replacement_mapping (some t) := by
  decide

theorem skills_idem_tags : ∀ t ∈ canonicalTags skills_replacement_mapping,
    replaceToken skills_replacement_mapping
        (replaceToken skills_replacement_mapping (some t)) =
      replaceToken skills_replacement_mapping (some t) := by
  decide

/-- C1 (amended): for every input column whose row count is not 1, each of
the five field pipelines returns an output column of exactly the input
length whose i-th entry is the cleaned value of the i-th input row (the
equation with `List.map` states both length preservation and per-row
alignment).  Single-row columns are excluded because `.squeeze()` collapses
the one-group frame to a scalar and the pipeline raises (see C10). -/
theorem C1_row_alignment (col : List Token) (h : col.length ≠ 1) :
    normalize_city_series col = some (col.map cityRow) ∧
    normalize_country_series col = some (col.map countryRow) ∧
    normalize_str_separated_series col = some (col.map strsepRow) ∧
    normalize_skills_series col = some (col.map skillsRow) ∧
    normalize_skills_series_extra col = some (col.map extraRow) :=
  ⟨city_norm col h, country_norm col h, strsep_norm col h, skills_norm col h,
   extra_norm col h⟩

/-- C1 counterexample: on the single-row column `["MILANO"]` the city
pipeline produces no output sequence at all (modelled as `none`: the
squeeze collapses to a bare scalar and `.str.join` raises), so no output
of length 1 exists and the claim as stated fails. -/
theorem C1_single_row_counterexample :
    normalize_city_series [some "MILANO"] = none := by
  decide

/-- C1 witness: the amended claim instantiated at a concrete two-row
column. -/
theorem C1_witness :
    (([none, none] : List Token).length ≠ 1) ∧
    (normalize_city_series [none, none] = some (([none, none] : List Token).map cityRow) ∧
     normalize_country_series [none, none] =
       some (([none, none] : List Token).map countryRow) ∧
     normalize_str_separated_series [none, none] =
       some (([none, none] : List Token).map strsepRow) ∧
     normalize_skills_series [none, none] =
       some (([none, none] : List Token).map skillsRow) ∧
     normalize_skills_series_extra [none, none] =
       some (([none, none] : List Token).map extraRow)) :=
  ⟨by decide, C1_row_alignment [none, none] (by decide)⟩

/-- C2: null propagation — a null (or non-string, modelled as `none`) cell
produces a null entry at the same position of the output of every field
pipeline, whenever that pipeline returns an output column. -/
theorem C2_null_propagation (col : List Token) (i : Nat)
    (hi : col[i]? = some none) :
    (∀ out, normalize_city_series col = some out → out[i]? = some none) ∧
    (∀ out, normalize_country_series col = some out → out[i]? = some none) ∧
    (∀ out, normalize_str_separated_series col = some out → out[i]? = some none) ∧
    (∀ out, normalize_skills_series col = some out → out[i]? = some none) ∧
    (∀ out, normalize_skills_series_extra col = some out → out[i]? = some none) := by
  refine ⟨?_, ?_, ?_, ?_, ?_⟩
  · intro out hout
    rw [row_out city_norm city_single hi hout]
    decide
  · intro out hout
    rw [row_out country_norm country_single hi hout]
    decide
  · intro out hout
    rw [row_out strsep_norm strsep_single hi hout]
    decide
  · intro out hout
    rw [row_out skills_norm skills_single hi hout]
    decide
  · intro out hout
    rw [row_out extra_norm extra_single hi hout]
    decide

/-- C2 witness: a two-row all-null column through the extended skill
pipeline. -/
theorem C2_witness :
    (([none, none] : List Token)[0]? = some none) ∧
    (normalize_skills_series_extra [none, none] = some [none, none]) ∧
    (([none, none] : List Token)[0]? = some none) :=
  ⟨by decide, by decide,
   (C2_null_propagation [none, none] 0 (by decide)).2.2.2.2 [none, none] (by decide)⟩

/-- C3 (amended): the prefix pass does not stop at the first matching
prefix.  Every rule of the extra dictionary is applied to the whole series
in declaration order, each rule acting on the token's current value, so an
earlier rule's replacement is re-scanned and can be rewritten by later
rules: the pass equals the per-token left fold of `replace_if_startswith`
over the dictionary, and the token `"DATA MINING"` (first hit by the
`"DATA MIN"` rule, whose replacement is `"DATA MINING"`) ends up as
`"DATA MANAGEMENT"` via the later `"DATA M"` rule. -/
theorem C3_cascading_rules (st : TokStream) :
    startswith_pass st extra_replacement_dict =
      mapTokens (startswithToken extra_replacement_dict) st ∧
    startswithToken extra_replacement_dict (some "DATA MINING") =
      some "DATA MANAGEMENT" :=
  ⟨startswith_pass_eq st extra_replacement_dict, by decide⟩

/-- C3 counterexample: under the claim the token `"DATA MINING"` would be
replaced by the `"DATA MIN"` rule with `"DATA MINING"` and never re-scanned,
so the pass would leave it unchanged; the code instead rewrites it further
to `"DATA MANAGEMENT"` via the later `"DATA M"` rule. -/
theorem C3_counterexample :
    startswith_pass [(0, some "DATA MINING")] extra_replacement_dict =
      [(0, some "DATA MANAGEMENT")] ∧
    ("DATA MIN", "DATA MINING") ∈ extra_replacement_dict ∧
    startswith_pass [(0, some "DATA MINING")] extra_replacement_dict ≠
      [(0, some "DATA MINING")] := by
  decide

/-- C4 (amended): a delimiter piece that trims to the empty string is not
dropped — it becomes a null token, and a null token in a row's group makes
the aggregator join the whole row to null.  So a city cell with an empty
piece (such as `"MILANO/"`) yields null for that row, and a row whose
pieces all trim to empty also yields null. -/
theorem C4_empty_piece_nullifies_row (col out : List Token) (i : Nat)
    (c piece : String) (hout : normalize_city_series col = some out)
    (hi : col[i]? = some (some c)) (hp : piece ∈ strSplit citySep c)
    (he : sTrim piece = "") : out[i]? = some none := by
  rw [row_out city_norm city_single hi hout]
  have hnone : cityRow (some c) = none :=
    setJoin_none_mem (cityRowTokens_none_of_empty hp he)
  rw [hnone]

/-- C4 counterexample: the city cell `"MILANO/"` does not yield `"MILAN"`
as the claim states — its row output is null (the empty piece after `/`
becomes a null token and poisons the row's join), while the unaffected row
`"ROME"` passes through. -/
theorem C4_counterexample :
    normalize_city_series [some "MILANO/", some "ROME"] =
      some [none, some "ROME"] ∧
    (none : Token) ≠ some "MILAN" := by
  decide

/-- C4 witness: the amended claim instantiated at the `"MILANO/"` cell. -/
theorem C4_witness :
    (normalize_city_series [some "MILANO/", some "ROME"] =
      some [none, some "ROME"]) ∧
    (([some "MILANO/", some "ROME"] : List Token)[0]? = some (some "MILANO/")) ∧
    ("" ∈ strSplit citySep "MILANO/") ∧
    (sTrim "" = "") ∧
    (([none, some "ROME"] : List Token)[0]? = some none) :=
  ⟨by decide, by decide, by decide, by decide,
   C4_empty_piece_nullifies_row [some "MILANO/", some "ROME"] [none, some "ROME"]
     0 "MILANO/" "" (by decide) (by decide) (by decide) (by decide)⟩

/-- C5 (amended): when the same variant is listed under two canonical tags
of one exact-match table, the FIRST-declared entry wins, not the last: the
entries are applied to the series in declaration order, so the earliest
entry listing the variant rewrites it, later entries never see the variant
any more, and the remaining entries act only on the produced tag (which
lets a chain continue from that tag). -/
theorem C5_first_declared_wins (pre post : List (String × List String))
    (cv v : String) (vs : List String)
    (hpre : ∀ e ∈ pre, v ∉ e.2) (hv : v ∈ vs) :
    replace_series [(0, some v)] (pre ++ (cv, vs) :: post) =
      [(0, replaceToken post (some cv))] := by
  rw [replace_series_eq]
  show [(0, replaceToken (pre ++ (cv, vs) :: post) (some v))] = _
  rw [replaceToken_append, replaceToken_not_mem hpre]
  show [(0, replaceToken post (replaceEntry (cv, vs) (some v)))] = _
  have hmid : replaceEntry (cv, vs) (some v) = some cv := by
    show (if v ∈ vs then some cv else some v) = some cv
    rw [if_pos hv]
  rw [hmid]

/-- C5 counterexample: in a table listing the variant `"V"` under `"A"`
and again under the later tag `"B"`, the rewrite resolves `"V"` to `"A"`
(the first-declared tag), not to `"B"` as the claim states. -/
theorem C5_counterexample :
    replace_series [(0, some "V")] [("A", ["V"]), ("B", ["V"])] =
      [(0, some "A")] ∧
    replace_series [(0, some "V")] [("A", ["V"]), ("B", ["V"])] ≠
      [(0, some "B")] := by
  decide

/-- C5 witness: the amended claim instantiated at a concrete table. -/
theorem C5_witness :
    (∀ e ∈ [("X", ["W"])], "V" ∉ e.2) ∧ "V" ∈ ["V"] ∧
    replace_series [(0, some "V")] ([("X", ["W"])] ++ ("A", ["V"]) :: [("B", ["V"])]) =
      [(0, replaceToken [("B", ["V"])] (some "A"))] :=
  ⟨by decide, by decide,
   C5_first_declared_wins [("X", ["W"])] [("B", ["V"])] "A" "V" ["V"]
     (by decide) (by decide)⟩

/-- C6: expansion correctness — a cell containing only `"REST"` is
rewritten by the skill table to the multi-tag value `"API;REST"`, split on
`;` into two tokens of the same row, deduplicated and re-joined, so the
row's output re-split on `;` contains `"API"` and `"REST"` exactly once
each. -/
theorem C6_expansion_correctness (col out : List Token) (i : Nat)
    (hi : col[i]? = some (some "REST"))
    (hout : normalize_skills_series col = some out) :
    ∃ s, out[i]? = some (some s) ∧
      (resplitSemi s).count "API" = 1 ∧ (resplitSemi s).count "REST" = 1 := by
  refine ⟨"API;REST", ?_, by decide, by decide⟩
  rw [row_out skills_norm skills_single hi hout]
  decide

/-- C6 witness: a concrete two-row column with a `"REST"` cell. -/
theorem C6_witness :
    (([some "REST", none] : List Token)[0]? = some (some "REST")) ∧
    (normalize_skills_series [some "REST", none] = some [some "API;REST", none]) ∧
    (∃ s, ([some "API;REST", none] : List Token)[0]? = some (some s) ∧
      (resplitSemi s).count "API" = 1 ∧ (resplitSemi s).count "REST" = 1) :=
  ⟨by decide, by decide,
   C6_expansion_correctness [some "REST", none] [some "API;REST", none] 0
     (by decide) (by decide)⟩

/-- C7: idempotence on canonical input — for every canonical tag of the
city, country and skill exact-match tables (the canonical values split on
`;`, so tags obtained by expansion such as `"REST"` from `"API;REST"` are
included), applying the table's exact-match rewrite twice yields the same
token as applying it once. -/
theorem C7_idempotence_on_canonical (t1 t2 t3 : String)
    (h1 : t1 ∈ canonicalTags city_replacement_mapping)
    (h2 : t2 ∈ canonicalTags country_replacement_mapping)
    (h3 : t3 ∈ canonicalTags skills_replacement_mapping) :
    replaceToken city_replacement_mapping
        (replaceToken city_replacement_mapping (some t1)) =
      replaceToken city_replacement_mapping (some t1) ∧
    replaceToken country_replacement_mapping
        (replaceToken country_replacement_mapping (some t2)) =
      replaceToken country_replacement_mapping (some t2) ∧
    replaceToken skills_replacement_mapping
        (replaceToken skills_replacement_mapping (some t3)) =
      replaceToken skills_replacement_mapping (some t3) :=
  ⟨city_idem_tags t1 h1, country_idem_tags t2 h2, skills_idem_tags t3 h3⟩

/-- C7 witness: concrete canonical tags of the three tables, including the
expanded tag `"REST"` (which the rewrite maps to `"API;REST"`, a fixed
point, so twice equals once). -/
theorem C7_witness :
    ("MILAN" ∈ canonicalTags city_replacement_mapping) ∧
    ("IT" ∈ canonicalTags country_replacement_mapping) ∧
    ("REST" ∈ canonicalTags skills_replacement_mapping) ∧
    (replaceToken skills_replacement_mapping
        (replaceToken skills_replacement_mapping (some "REST")) =
      replaceToken skills_replacement_mapping (some "REST")) :=
  ⟨by decide, by decide, by decide,
   (C7_idempotence_on_canonical "MILAN" "IT" "REST"
     (by decide) (by decide) (by decide)).2.2⟩

/-- C8 (amended): a token that equals no variant of the table is left
unchanged by the exact-match rewrite (the rewrite never drops or alters
unmatched tokens); in particular country input `"CH"` — a canonical key,
not a variant — yields output `"CH"`.  (The token still vanishes from the
row's final output when another token of the same row is null, e.g. when a
piece of that row trims to empty — see the counterexample and C4.) -/
theorem C8_pass_through :
    (∀ (tbl : List (String × List String)) (v : String),
        (∀ e ∈ tbl, v ∉ e.2) → replaceToken tbl (some v) = some v) ∧
    (∀ (col out : List Token) (i : Nat), col[i]? = some (some "CH") →
        normalize_country_series col = some out → out[i]? = some (some "CH")) := by
  constructor
  · intro tbl v h
    exact replaceToken_not_mem h
  · intro col out i hi hout
    rw [row_out country_norm country_single hi hout]
    decide

/-- C8 counterexample: `"ROZZANO"` matches no variant of the country
table, yet the row `"ROZZANO/"` outputs null — the unmatched token does
not appear in that row's output, refuting the unconditional claim. -/
theorem C8_counterexample :
    normalize_country_series [some "ROZZANO/", some "USA"] =
      some [none, some "US"] ∧
    country_replacement_mapping.all (fun e => !(e.2.contains "ROZZANO")) = true := by
  decide

/-- C8 witness: pass-through of the unmatched `"ROZZANO"` at the rewrite
stage and the end-to-end `"CH"` scenario. -/
theorem C8_witness :
    (∀ e ∈ country_replacement_mapping, "ROZZANO" ∉ e.2) ∧
    (replaceToken country_replacement_mapping (some "ROZZANO") = some "ROZZANO") ∧
    (([some "CH", none] : List Token)[0]? = some (some "CH")) ∧
    (normalize_country_series [some "CH", none] = some [some "CH", none]) ∧
    (([some "CH", none] : List Token)[0]? = some (some "CH")) :=
  ⟨by decide,
   C8_pass_through.1 country_replacement_mapping "ROZZANO" (by decide),
   by decide, by decide,
   C8_pass_through.2 [some "CH", none] [some "CH", none] 0 (by decide) (by decide)⟩

/-- C9: dedup property — for every non-null entry of every pipeline's
output, re-splitting the joined string on `;` yields a list without
duplicates (per-row tokens are deduplicated before joining, and no final
token contains `;`). -/
theorem C9_dedup_property (col out : List Token) (i : Nat) (s : String) :
    (normalize_city_series col = some out → out[i]? = some (some s) →
      (resplitSemi s).Nodup) ∧
    (normalize_country_series col = some out → out[i]? = some (some s) →
      (resplitSemi s).Nodup) ∧
    (normalize_str_separated_series col = some out → out[i]? = some (some s) →
      (resplitSemi s).Nodup) ∧
    (normalize_skills_series col = some out → out[i]? = some (some s) →
      (resplitSemi s).Nodup) ∧
    (normalize_skills_series_extra col = some out → out[i]? = some (some s) →
      (resplitSemi s).Nodup) := by
  refine ⟨?_, ?_, ?_, ?_, ?_⟩
  · intro hout hs
    exact pipe_row_nodup
      ((fun c => rfl) : ∀ c, cityRow c = setJoin (cityRowTokens c))
      city_norm city_single (fun c => cityRowTokens_ne_nil c)
      (fun c => cityRowTokens_semifree c) hout hs
  · intro hout hs
    exact pipe_row_nodup
      ((fun c => rfl) : ∀ c, countryRow c = setJoin (countryRowTokens c))
      country_norm country_single (fun c => countryRowTokens_ne_nil c)
      (fun c => countryRowTokens_semifree c) hout hs
  · intro hout hs
    exact pipe_row_nodup
      ((fun c => rfl) : ∀ c, strsepRow c = setJoin (strsepRowTokens c))
      strsep_norm strsep_single (fun c => strsepRowTokens_ne_nil c)
      (fun c => strsepRowTokens_semifree c) hout hs
  · intro hout hs
    exact pipe_row_nodup
      ((fun c => rfl) : ∀ c, skillsRow c = setJoin (skillsRowTokens c))
      skills_norm skills_single (fun c => skillsRowTokens_ne_nil c)
      (fun c => skillsRowTokens_semifree c) hout hs
  · intro hout hs
    exact pipe_row_nodup
      ((fun c => rfl) : ∀ c, extraRow c = setJoin (extraRowTokens c))
      extra_norm extra_single (fun c => extraRowTokens_ne_nil c)
      (fun c => extraRowTokens_semifree c) hout hs

/-- C9 witness: a concrete output row re-split without duplicates. -/
theorem C9_witness :
    (normalize_city_series [some "A", none] = some [some "A", none]) ∧
    (([some "A", none] : List Token)[0]? = some (some "A")) ∧
    (resplitSemi "A").Nodup :=
  ⟨by decide, by decide,
   (C9_dedup_property [some "A", none] [some "A", none] 0 "A").1
     (by decide) (by decide)⟩

/-- C10: single-row columns error — whenever the grouped token stream has
exactly one distinct row label, `squeeze_series` collapses the one-row
frame to a bare scalar and the join step fails (modelled as `none`), so
every field pipeline errors on every single-row column instead of
producing an output. -/
theorem C10_single_row_error (st : TokStream) (c : Token) :
    ((groupKeys st).length = 1 → squeeze_series st = none) ∧
    normalize_city_series [c] = none ∧
    normalize_country_series [c] = none ∧
    normalize_str_separated_series [c] = none ∧
    normalize_skills_series [c] = none ∧
    normalize_skills_series_extra [c] = none := by
  refine ⟨?_, city_single c, country_single c, strsep_single c, skills_single c,
    extra_single c⟩
  intro h
  have hlen : (agg_set st).length = 1 := by rw [agg_set_length]; exact h
  obtain ⟨r, hr⟩ := List.length_eq_one.mp hlen
  unfold squeeze_series
  rw [hr]
  rfl

/-- C10 witness: a one-token stream with a single row label, and a
single-row column through the base skill pipeline. -/
theorem C10_witness :
    ((groupKeys [(0, some "X")]).length = 1) ∧
    (squeeze_series [(0, some "X")] = none) ∧
    (normalize_skills_series [none] = none) :=
  ⟨by decide, (C10_single_row_error [(0, some "X")] none).1 (by decide),
   (C10_single_row_error [(0, some "X")] none).2.2.2.2.1⟩

end Helpers
